import Mathlib

/-!
Verification of the s3-universal-backend endpoints.

The repository is a set of serverless HTTP handlers (login, verify, logout,
save) written in JavaScript.  This file gives a shallow embedding of those
handlers: JavaScript strings become `List Char` (wrapped in `String` at the
handler boundary), environment variables become `Option String` (with the
JavaScript falsiness of `undefined` and `""` made explicit), the external
`jsonwebtoken` library becomes a symbolic token codec, and every S3 call a
handler issues is recorded in an explicit operation trace.
-/

namespace SaveBackend

/-! ## JavaScript string primitives, modelled on `List Char` -/

/-- JavaScript `String.prototype.split` with a one-character separator:
`"a;b;".split(';') = ["a","b",""]` and `"".split(';') = [""]`. -/
def splitChar (sep : Char) : List Char → List (List Char)
  | [] => [[]]
  | c :: cs =>
    if c = sep then [] :: splitChar sep cs
    else
      match splitChar sep cs with
      | [] => [[c]]
      | p :: ps => (c :: p) :: ps

/-- JavaScript `String.prototype.trim`: drop leading and trailing whitespace. -/
def jsTrim (l : List Char) : List Char :=
  ((l.dropWhile Char.isWhitespace).reverse.dropWhile Char.isWhitespace).reverse

/-- JavaScript `String.prototype.startsWith` (pattern `p`, subject `l`). -/
def listStarts (p l : List Char) : Bool :=
  l.take p.length == p

/-! ## The token codec

The repository calls the external `jsonwebtoken` library
(`jwt.sign({username, iat}, secret, {expiresIn: '7d'})` and
`jwt.verify(token, secret)`).  The library is not part of the repository, so
it is modelled symbolically: a signed token is a string that embeds the
expiry time (unary), the username (length-delimited) and the signing secret
(standing in for the HMAC); verification parses those parts back, checks the
secret and the expiry, and fails closed otherwise. -/

/-- The decoded payload of a token: a username and an issue time (seconds). -/
structure JwtPayload where
  username : String
  iat : Nat
deriving DecidableEq, Repr

/-- Seconds in the `'7d'` expiry window used by `api/login.js`. -/
def sevenDays : Nat := 7 * 24 * 60 * 60

/-- JavaScript `process.env.X` as an optional string; `undefined` and `""`
are both falsy, collapsed to `""` by `envStr`. -/
def envStr (v : Option String) : String := v.getD ""

/-- `process.env.JWT_SECRET || 'default-secret-change-in-production'`
(shared by `api/login.js`, `api/verify.js`, `api/save.js`). -/
def jwtSecretOf (v : Option String) : String :=
  if envStr v = "" then "default-secret-change-in-production" else envStr v

/-- Symbolic `jwt.sign({username, iat}, secret, {expiresIn: '7d'})`:
the expiry `iat + sevenDays` in unary, a dot, the username length in unary,
a dot, then the username followed by the secret. -/
def jwtSign (secret username : String) (iat : Nat) : String :=
  ⟨List.replicate (iat + sevenDays) 'x' ++
    '.' :: (List.replicate username.data.length 'y' ++
      '.' :: (username.data ++ secret.data))⟩

/-- Symbolic `jwt.verify(token, secret)` at time `now`: recover the payload
and accept only if the embedded secret matches and the token is unexpired. -/
def jwtVerify (secret : String) (now : Nat) (t : String) : Option JwtPayload :=
  let l := t.data
  let exp := (l.takeWhile (fun c => c != '.')).length
  let r1 := (l.dropWhile (fun c => c != '.')).drop 1
  let n := (r1.takeWhile (fun c => c != '.')).length
  let r2 := (r1.dropWhile (fun c => c != '.')).drop 1
  if r2.drop n = secret.data ∧ now < exp then
    some ⟨⟨r2.take n⟩, exp - sevenDays⟩
  else
    none

/-! ## The credential extractor

`verifyToken` in `api/verify.js` and `api/save.js` (the two copies are
character-identical): read the `auth_token` cookie, fall back to an
`Authorization: Bearer` header, and feed the result to `jwt.verify`. -/

/-- The cookie leg: `cookies.split(';').find(c => c.trim()
.startsWith('auth_token='))?.split('=')[1]`.  Note the `split('=')[1]` is on
the untrimmed cookie piece and keeps only the part before a second `=`. -/
def cookieTokenOf (cookie : String) : Option String :=
  match (splitChar ';' cookie.data).find?
      (fun c => listStarts "auth_token=".data (jsTrim c)) with
  | none => none
  | some c => some ⟨(splitChar '=' c).getD 1 []⟩

/-- The header leg: `authHeader?.startsWith('Bearer ') ?
authHeader.substring(7) : null`. -/
def bearerTokenOf (auth : Option String) : Option String :=
  match auth with
  | none => none
  | some a => if listStarts "Bearer ".data a.data then some ⟨a.data.drop 7⟩ else none

/-- `const token = cookieToken || bearerToken; if (!token) return null`,
with JavaScript falsiness of the empty string made explicit. -/
def tokenOf (cookie : String) (auth : Option String) : Option String :=
  let t :=
    match cookieTokenOf cookie with
    | some s => if s = "" then bearerTokenOf auth else some s
    | none => bearerTokenOf auth
  match t with
  | some s => if s = "" then none else some s
  | none => none

/-- The whole of `verifyToken(req)`: extract a token and decode it. -/
def verifyToken (secretEnv : Option String) (now : Nat) (cookie : String)
    (auth : Option String) : Option JwtPayload :=
  match tokenOf cookie auth with
  | none => none
  | some t => jwtVerify (jwtSecretOf secretEnv) now t

/-! ## JavaScript values and truthiness

`req.body.data` may be any JSON value; the handlers branch on its
truthiness (`if (!data && !image)`, `if (data)`).  Object payloads are
modelled shallowly as string-valued field lists; only truthiness and
`typeof data === 'string'` matter to the handlers. -/

inductive JsVal where
  | vstr : String → JsVal
  | vnum : Int → JsVal
  | vbool : Bool → JsVal
  | vnull : JsVal
  | vobj : List (String × String) → JsVal
deriving DecidableEq

/-- JavaScript truthiness: `""`, `0`, `false` and `null` are falsy, every
other value (including `{}`) is truthy. -/
def jsTruthy : JsVal → Bool
  | .vstr s => s != ""
  | .vnum n => n != 0
  | .vbool b => b
  | .vnull => false
  | .vobj _ => true

/-- `JSON.stringify` for the shallow value model. -/
def jsonStringify : JsVal → String
  | .vstr s => "\"" ++ s ++ "\""
  | .vnum n => toString n
  | .vbool b => cond b "true" "false"
  | .vnull => "null"
  | .vobj fields =>
      "\x7b" ++ String.intercalate ","
        (fields.map (fun f => "\"" ++ f.1 ++ "\":\"" ++ f.2 ++ "\"")) ++ "\x7d"

/-- `typeof data === 'string' ? data : JSON.stringify(data)`. -/
def jsonBodyOf : JsVal → String
  | .vstr s => s
  | v => jsonStringify v

/-! ## The login handler (`api/login.js`) -/

structure LoginEnv where
  LOGIN_USERNAME : Option String
  LOGIN_PASSWORD : Option String
  JWT_SECRET : Option String
  NODE_ENV : Option String

structure LoginRequest where
  method : String
  username : Option String
  password : Option String

structure LoginResponse where
  status : Nat
  token : Option String
  setCookie : Option String
  error : Option String
deriving DecidableEq

/-- `api/login.js`: POST only; 500 when `LOGIN_USERNAME`/`LOGIN_PASSWORD`
are unset; 401 on mismatch; otherwise sign a 7-day token, set the
`auth_token` cookie and return the token.  `nowSec` is
`Math.floor(Date.now() / 1000)`. -/
def loginHandler (env : LoginEnv) (nowSec : Nat) (req : LoginRequest) : LoginResponse :=
  if req.method ≠ "POST" then ⟨405, none, none, some "Method not allowed"⟩
  else
    let validU := envStr env.LOGIN_USERNAME
    let validP := envStr env.LOGIN_PASSWORD
    if validU = "" ∨ validP = "" then
      ⟨500, none, none, some "Server configuration error"⟩
    else if req.username ≠ some validU ∨ req.password ≠ some validP then
      ⟨401, none, none, some "Invalid username or password"⟩
    else
      let token := jwtSign (jwtSecretOf env.JWT_SECRET) (req.username.getD "") nowSec
      ⟨200, some token,
        some ("auth_token=" ++ token ++
          "; HttpOnly; Path=/; Max-Age=604800; SameSite=Strict" ++
          (if envStr env.NODE_ENV = "production" then "; Secure" else "")),
        none⟩

/-! ## The verify handler (`api/verify.js`) -/

structure VerifyRequest where
  method : String
  cookie : String
  authorization : Option String

structure VerifyResponse where
  status : Nat
  authenticated : Bool
  username : Option String
  error : Option String
deriving DecidableEq

/-- `api/verify.js`: GET/POST; decode the token from cookie or bearer
header; 401 with `authenticated:false` when absent/invalid, else 200 with
the decoded username. -/
def verifyHandler (secretEnv : Option String) (now : Nat) (req : VerifyRequest) :
    VerifyResponse :=
  if req.method ≠ "GET" ∧ req.method ≠ "POST" then
    ⟨405, false, none, some "Method not allowed"⟩
  else
    match verifyToken secretEnv now req.cookie req.authorization with
    | some p =>
        if p.username = "" then ⟨401, false, none, some "Not authenticated"⟩
        else ⟨200, true, some p.username, none⟩
    | none => ⟨401, false, none, some "Not authenticated"⟩

/-! ## The S3 client configuration (`api/save.js`, lines 11–27) -/

structure SaveEnv where
  S3_ENDPOINT : Option String
  S3_REGION : Option String
  S3_ACCESS_KEY_ID : Option String
  S3_SECRET_ACCESS_KEY : Option String
  S3_BUCKET : Option String
  S3_FORCE_PATH_STYLE : Option String
  R2_ACCOUNT_ID : Option String
  R2_JURISDICTION : Option String
  LIVE_URL : Option String
  JWT_SECRET : Option String

/-- `const isR2 = !!process.env.R2_ACCOUNT_ID`. -/
def isR2 (env : SaveEnv) : Bool := envStr env.R2_ACCOUNT_ID != ""

/-- `let endpoint = process.env.S3_ENDPOINT; if (!endpoint && isR2)
endpoint = https://{account}.{jurisdiction.}r2.cloudflarestorage.com`. -/
def s3Endpoint (env : SaveEnv) : Option String :=
  if envStr env.S3_ENDPOINT = "" ∧ isR2 env then
    let jurisdiction := envStr env.R2_JURISDICTION
    some ("https://" ++ envStr env.R2_ACCOUNT_ID ++ "." ++
      (if jurisdiction = "" then "" else jurisdiction ++ ".") ++
      "r2.cloudflarestorage.com")
  else env.S3_ENDPOINT

/-- `region: process.env.S3_REGION || (isR2 ? 'auto' : 'us-east-1')`. -/
def s3Region (env : SaveEnv) : String :=
  if envStr env.S3_REGION ≠ "" then envStr env.S3_REGION
  else if isR2 env then "auto" else "us-east-1"

/-- `forcePathStyle: process.env.S3_FORCE_PATH_STYLE === 'true' || isR2`. -/
def s3ForcePathStyle (env : SaveEnv) : Bool :=
  (envStr env.S3_FORCE_PATH_STYLE == "true") || isR2 env

structure S3ClientConfig where
  endpoint : Option String
  region : String
  accessKeyId : Option String
  secretAccessKey : Option String
  forcePathStyle : Bool
deriving DecidableEq

/-- The `new S3Client({...})` argument built at module load of `api/save.js`. -/
def s3ClientOf (env : SaveEnv) : S3ClientConfig :=
  ⟨s3Endpoint env, s3Region env, env.S3_ACCESS_KEY_ID,
    env.S3_SECRET_ACCESS_KEY, s3ForcePathStyle env⟩

/-! ## Content-type inference -/

/-- The `contentTypeMap` object literal (identical in `api/save.js` and in
the unnamed save variant). -/
def contentTypeMap : List (String × String) :=
  [("jpg", "image/jpeg"), ("jpeg", "image/jpeg"), ("png", "image/png"),
   ("gif", "image/gif"), ("webp", "image/webp"), ("svg", "image/svg+xml")]

/-- Property names every plain JavaScript object inherits from
`Object.prototype`; reading them on `contentTypeMap` yields a truthy
function or object value, not `undefined`. -/
def objectProtoProps : List String :=
  ["constructor", "hasOwnProperty", "isPrototypeOf", "propertyIsEnumerable",
   "toLocaleString", "toString", "valueOf", "__defineGetter__",
   "__defineSetter__", "__lookupGetter__", "__lookupSetter__", "__proto__"]

/-- The value `contentTypeMap[t] || 'image/png'` evaluates to: either a
MIME string, or (for inherited property names) the inherited truthy
non-string value, tagged by the property name. -/
inductive CType where
  | mime : String → CType
  | protoVal : String → CType
deriving DecidableEq

/-- `contentTypeMap[t] || 'image/png'`: an own property yields its string;
an `Object.prototype` property is truthy so `||` keeps it; anything else is
`undefined` and falls back to `'image/png'`. -/
def inferContentType (t : String) : CType :=
  match contentTypeMap.lookup t with
  | some m => CType.mime m
  | none => if t ∈ objectProtoProps then CType.protoVal t else CType.mime "image/png"

/-! ## Image payload parsing -/

/-- `\w` of the regexes `^data:image\/(\w+);base64,`. -/
def isWordChar (c : Char) : Bool := c.isAlphanum || c == '_'

/-- `image.match(/^data:image\/(\w+);base64,/)`, returning the captured
image type when the data-URL head matches. -/
def dataUrlKind (image : String) : Option String :=
  let l := image.data
  if listStarts "data:image/".data l then
    let w := (l.drop 11).takeWhile isWordChar
    if w ≠ [] ∧ listStarts ";base64,".data ((l.drop 11).drop w.length) then
      some ⟨w⟩
    else none
  else none

/-- `image.replace(/^data:image\/\w+;base64,/, '')`; the resulting base64
text also stands in for the decoded `Buffer` in the operation trace. -/
def base64DataOf (image : String) : String :=
  match dataUrlKind image with
  | some k => ⟨image.data.drop (11 + k.data.length + 8)⟩
  | none => image

/-! ## The save handlers -/

structure SaveRequest where
  method : String
  cookie : String
  authorization : Option String
  data : Option JsVal
  image : Option String
  filename : Option String

structure ApiResponse where
  status : Nat
  error : Option String
  success : Bool
  resultsJsonKey : Option String
  resultsImageKey : Option String
deriving DecidableEq

/-- One `PutObjectCommand` sent through `s3Client.send`. -/
structure PutOp where
  key : String
  contentType : CType
  body : String
deriving DecidableEq

/-- A handler outcome: the HTTP response and the trace of storage writes
issued before responding. -/
structure SaveResult where
  response : ApiResponse
  ops : List PutOp
deriving DecidableEq

/-- `api/save.js` (the variant with server-generated filenames): POST only,
authenticate, require `data` or `image` truthy, require `S3_BUCKET`, put
the JSON under `{username}/data.json`, and put the image under
`{username}/img/{random}.{ext}`.  `rand` models the concatenated
`Math.random().toString(36)` fragments; the public-URL field of the
response (built from `LIVE_URL`) is outside every claim and omitted. -/
def saveHandler (env : SaveEnv) (now : Nat) (rand : String) (req : SaveRequest) :
    SaveResult :=
  if req.method ≠ "POST" then ⟨⟨405, some "Method not allowed", false, none, none⟩, []⟩
  else
    match verifyToken env.JWT_SECRET now req.cookie req.authorization with
    | none => ⟨⟨401, some "Unauthorized", false, none, none⟩, []⟩
    | some p =>
      if p.username = "" then ⟨⟨401, some "Unauthorized", false, none, none⟩, []⟩
      else
        let username := p.username
        let dataTruthy := match req.data with | some v => jsTruthy v | none => false
        let imageTruthy := match req.image with | some s => s != "" | none => false
        if !dataTruthy && !imageTruthy then
          ⟨⟨400, some "Either data (JSON) or image (base64) must be provided",
            false, none, none⟩, []⟩
        else if envStr env.S3_BUCKET = "" then
          ⟨⟨500, some "Server configuration error", false, none, none⟩, []⟩
        else
          let jsonKey := username ++ "/data.json"
          let jsonOps : List PutOp :=
            if dataTruthy = true then
              [⟨jsonKey, CType.mime "application/json",
                jsonBodyOf (req.data.getD JsVal.vnull)⟩]
            else []
          let jsonRes := if dataTruthy = true then some jsonKey else none
          if imageTruthy = true then
            let image := req.image.getD ""
            let imageType := (dataUrlKind image).getD "png"
            let extension := if imageType = "jpeg" then "jpg" else imageType
            let imageKey := username ++ "/img/" ++ (rand ++ "." ++ extension)
            ⟨⟨200, none, true, jsonRes, some imageKey⟩,
              jsonOps ++ [⟨imageKey, inferContentType imageType, base64DataOf image⟩]⟩
          else
            ⟨⟨200, none, true, jsonRes, none⟩, jsonOps⟩

/-- The unnamed save variant (`src/unnamed/part_000`): same shape, but the
caller must supply `filename`, the content type is inferred from
`filename.split('.').pop().toLowerCase()`, and — notably — the missing-
filename check runs only after the JSON object has already been put. -/
def savePart000 (env : SaveEnv) (now : Nat) (req : SaveRequest) : SaveResult :=
  if req.method ≠ "POST" then ⟨⟨405, some "Method not allowed", false, none, none⟩, []⟩
  else
    match verifyToken env.JWT_SECRET now req.cookie req.authorization with
    | none => ⟨⟨401, some "Unauthorized", false, none, none⟩, []⟩
    | some p =>
      if p.username = "" then ⟨⟨401, some "Unauthorized", false, none, none⟩, []⟩
      else
        let username := p.username
        let dataTruthy := match req.data with | some v => jsTruthy v | none => false
        let imageTruthy := match req.image with | some s => s != "" | none => false
        if !dataTruthy && !imageTruthy then
          ⟨⟨400, some "Either data (JSON) or image (base64) must be provided",
            false, none, none⟩, []⟩
        else if envStr env.S3_BUCKET = "" then
          ⟨⟨500, some "Server configuration error", false, none, none⟩, []⟩
        else
          let jsonKey := username ++ "/data.json"
          let jsonOps : List PutOp :=
            if dataTruthy = true then
              [⟨jsonKey, CType.mime "application/json",
                jsonBodyOf (req.data.getD JsVal.vnull)⟩]
            else []
          let jsonRes := if dataTruthy = true then some jsonKey else none
          if imageTruthy = true then
            let filenameTruthy :=
              match req.filename with | some f => f != "" | none => false
            if !filenameTruthy then
              ⟨⟨400, some "filename is required when providing image data",
                false, none, none⟩, jsonOps⟩
            else
              let filename := req.filename.getD ""
              let extension : String :=
                ⟨(((splitChar '.' filename.data).getLast?).getD []).map Char.toLower⟩
              let image := req.image.getD ""
              let imageKey := username ++ "/img/" ++ filename
              ⟨⟨200, none, true, jsonRes, some imageKey⟩,
                jsonOps ++ [⟨imageKey, inferContentType extension, base64DataOf image⟩]⟩
          else
            ⟨⟨200, none, true, jsonRes, none⟩, jsonOps⟩

/-! ## The backup/retention manager

The repository's README documents that a JSON save backs the previous
`data.json` up to `{username}/data.json.backup.{timestamp}` and that
backups older than 30 days are cleaned up, but the save-endpoint source in
this tree (`api/save.js` and the unnamed variant) contains no backup code:
the backup-enabled variant of the endpoint is missing from the tree.  The
definitions below are therefore modelled from the spec (§3, §4.4), not
translated from source. -/

/-- Modelled from the spec: a structured object key.  The string rendering
is `renderKey`; the backup timestamp is modelled as seconds, standing in
for the sortable `YYYY-MM-DD_HH-MM-SS` rendering. -/
inductive ObjKey where
  | dataJson : String → ObjKey
  | backup : String → Nat → ObjKey
  | img : String → String → ObjKey
deriving DecidableEq

/-- Modelled from the spec: the persisted key layout
`{username}/data.json`, `{username}/data.json.backup.{timestamp}`,
`{username}/img/{filename}`. -/
def renderKey : ObjKey → String
  | .dataJson u => u ++ "/data.json"
  | .backup u ts => u ++ "/data.json.backup." ++ toString ts
  | .img u fn => u ++ "/img/" ++ fn

/-- The object store as a map from keys to bodies (the spec's sole source
of truth across requests). -/
def Store : Type := ObjKey → Option String

/-- Write (create or overwrite) one object. -/
def insertStore (k : ObjKey) (v : String) (st : Store) : Store :=
  fun k' => if k' = k then some v else st k'

/-- Modelled from the spec: the 30-day retention window, in seconds. -/
def retentionWindow : Nat := 30 * 24 * 60 * 60

/-- Modelled from the spec: the best-effort retention sweep after a
successful write — list the user's backup objects, and delete every one
whose timestamp is older than the retention window.  `deleteOk` says which
individual deletes succeed; a failed delete leaves the backup in place. -/
def sweep (deleteOk : ObjKey → Bool) (u : String) (now : Nat) (st : Store) : Store :=
  fun k =>
    match k with
    | .backup u' ts =>
        if u' = u ∧ now - ts > retentionWindow ∧ deleteOk (.backup u' ts) then
          none
        else st k
    | _ => st k

/-- Modelled from the spec: the JSON-save sequence of the backup-enabled
save variant (§4.4): (1) if an object exists at the canonical key, copy it
to a backup key stamped with the current time, skipping when absent;
(2) write the new content to the canonical key; (3) run the retention
sweep, whose failures do not affect the response.  Returns the new store
and the HTTP status of the save response. -/
def jsonSaveBackup (deleteOk : ObjKey → Bool) (u content : String) (now : Nat)
    (st : Store) : Store × Nat :=
  let st₁ :=
    match st (.dataJson u) with
    | some old => insertStore (.backup u now) old st
    | none => st
  let st₂ := insertStore (.dataJson u) content st₁
  (sweep deleteOk u now st₂, 200)

/-- A concrete store used to exercise the retention sweep: two stale
backups (timestamps 0 and 1) and one fresh backup (timestamp 20). -/
def stC2 : Store := fun k =>
  if k = .backup "alice" 0 then some "old0"
  else if k = .backup "alice" 1 then some "old1"
  else if k = .backup "alice" 20 then some "fresh"
  else none

/-! ## Concrete instances used by witnesses -/

/-- Witness request for C3: POST, empty cookie header, no auth header. -/
def reqC3 : SaveRequest :=
  ⟨"POST", "", none, some (JsVal.vstr "hello"), none, none⟩

/-- A concrete save environment used by several witnesses. -/
def envW : SaveEnv :=
  ⟨none, none, some "AK", some "SK", some "bucket", none, none, none, none,
    some "secret"⟩

/-- A token signed with `envW`'s secret for user `alice` at time 0. -/
def tokW : String := jwtSign (jwtSecretOf (some "secret")) "alice" 0

/-- An authenticated request carrying JSON, an image and a filename. -/
def reqC5 : SaveRequest :=
  ⟨"POST", "", some ⟨"Bearer ".data ++ tokW.data⟩, some (JsVal.vstr "d"),
    some "data:image/png;base64,AAA", some "pic.png"⟩

/-- An authenticated request carrying JSON and an image but no filename. -/
def reqC9 : SaveRequest :=
  ⟨"POST", "", some ⟨"Bearer ".data ++ tokW.data⟩, some (JsVal.vstr "d"),
    some "data:image/png;base64,AAA", none⟩

/-- An authenticated request whose `data` is the falsy value `0` and whose
`image` is absent. -/
def reqC10 : SaveRequest :=
  ⟨"POST", "", some ⟨"Bearer ".data ++ tokW.data⟩, some (JsVal.vnum 0),
    none, none⟩

/-- An environment with `R2_ACCOUNT_ID` set but an explicit `S3_ENDPOINT`
and `S3_REGION` also set. -/
def envC6 : SaveEnv :=
  ⟨some "https://minio.example.com", some "us-west-2", some "AK", some "SK",
    some "bucket", none, some "acct123", none, none, none⟩

/-- An environment in pure R2 mode: account id and jurisdiction set, no
explicit endpoint or region. -/
def envR2 : SaveEnv :=
  ⟨none, none, some "AK", some "SK", some "bucket", none, some "acct123",
    some "eu", none, none⟩

/-- A login environment with credentials and a secret configured. -/
def envL : LoginEnv := ⟨some "admin", some "pw", some "s", none⟩

/-! ## Sanity checks of the extractor on concrete requests -/

example : tokenOf "auth_token=abc" none = some "abc" := by rfl
example : tokenOf "" (some "Bearer xyz") = some "xyz" := by rfl
example : tokenOf "other=1; auth_token=abc" (some "Bearer xyz") = some "abc" := by rfl
example : tokenOf "" none = none := by rfl
example : tokenOf "auth_token=" (some "Bearer xyz") = some "xyz" := by rfl

/-! ## Roundtrip lemmas for the codec and the extractor -/

theorem takeWhile_replicate_cons (p : Char → Bool) (k : Nat) (c d : Char)
    (hc : p c = true) (hd : p d = false) (r : List Char) :
    (List.replicate k c ++ d :: r).takeWhile p = List.replicate k c := by
  induction k with
  | zero => simp [List.takeWhile_cons, hd]
  | succ n ih => simp [List.replicate_succ, List.takeWhile_cons, hc, ih]

theorem dropWhile_replicate_cons (p : Char → Bool) (k : Nat) (c d : Char)
    (hc : p c = true) (hd : p d = false) (r : List Char) :
    (List.replicate k c ++ d :: r).dropWhile p = d :: r := by
  induction k with
  | zero => simp [List.dropWhile_cons, hd]
  | succ n ih => simp [List.replicate_succ, List.dropWhile_cons, hc, ih]

/-- Decoding a signed token recovers the signed payload exactly when the
token is checked before its expiry. -/
theorem jwtVerify_jwtSign (secret u : String) (iat now : Nat) :
    jwtVerify secret now (jwtSign secret u iat) =
      if now < iat + sevenDays then some ⟨u, iat⟩ else none := by
  have hx : ((('x' : Char)) != '.') = true := by decide
  have hy : ((('y' : Char)) != '.') = true := by decide
  have hd : ((('.' : Char)) != '.') = false := by decide
  unfold jwtVerify jwtSign
  simp only [takeWhile_replicate_cons (fun c => c != '.') _ 'x' '.' hx hd,
    dropWhile_replicate_cons (fun c => c != '.') _ 'x' '.' hx hd,
    List.length_replicate, List.drop_one, List.tail_cons,
    takeWhile_replicate_cons (fun c => c != '.') _ 'y' '.' hy hd,
    dropWhile_replicate_cons (fun c => c != '.') _ 'y' '.' hy hd,
    List.take_left, List.drop_left]
  by_cases h : now < iat + sevenDays
  · simp [h, Nat.add_sub_cancel]
  · simp [h]

theorem dropWhile_eq_self_of_all (p : Char → Bool) (l : List Char)
    (h : ∀ c ∈ l, p c = false) : l.dropWhile p = l := by
  induction l with
  | nil => rfl
  | cons a l ih =>
    have ha := h a (by simp)
    simp [List.dropWhile_cons, ha]

theorem jsTrim_eq_self (l : List Char)
    (h : ∀ c ∈ l, c.isWhitespace = false) : jsTrim l = l := by
  unfold jsTrim
  rw [dropWhile_eq_self_of_all _ _ h,
    dropWhile_eq_self_of_all _ _ (fun c hc => h c (List.mem_reverse.mp hc)),
    List.reverse_reverse]

theorem splitChar_eq_single (sep : Char) (l : List Char) (h : sep ∉ l) :
    splitChar sep l = [l] := by
  induction l with
  | nil => rfl
  | cons a l ih =>
    have ha : a ≠ sep := fun e => h (by simp [e])
    have : sep ∉ l := fun e => h (by simp [e])
    rw [splitChar, if_neg ha, ih this]

theorem splitChar_append (sep : Char) (l₁ l₂ : List Char) (h : sep ∉ l₁) :
    splitChar sep (l₁ ++ sep :: l₂) = l₁ :: splitChar sep l₂ := by
  induction l₁ with
  | nil => simp [splitChar]
  | cons a l ih =>
    have ha : a ≠ sep := fun e => h (by simp [e])
    have hl : sep ∉ l := fun e => h (by simp [e])
    have := ih hl
    rw [List.cons_append, splitChar, if_neg ha, this]

/-- A well-formed token placed in the `auth_token` cookie is extracted
verbatim, whatever the `Authorization` header holds. -/
theorem tokenOf_cookie (t : String) (auth : Option String)
    (hne : t ≠ "")
    (h : ∀ c ∈ t.data, c ≠ ';' ∧ c ≠ '=' ∧ c.isWhitespace = false) :
    tokenOf ⟨"auth_token=".data ++ t.data⟩ auth = some t := by
  have hsplit : splitChar ';' ("auth_token=".data ++ t.data) =
      [("auth_token=".data ++ t.data)] := by
    apply splitChar_eq_single
    intro hmem
    rcases List.mem_append.mp hmem with hmem | hmem
    · revert hmem; decide
    · exact (h _ hmem).1 rfl
  have htrim : jsTrim ("auth_token=".data ++ t.data) =
      "auth_token=".data ++ t.data := by
    apply jsTrim_eq_self
    intro c hc
    rcases List.mem_append.mp hc with hc | hc
    · exact (by decide : ∀ c ∈ "auth_token=".data, c.isWhitespace = false) c hc
    · exact (h _ hc).2.2
  have hstarts : listStarts "auth_token=".data ("auth_token=".data ++ t.data) = true := by
    simp [listStarts, List.take_left]
  have heqsplit : splitChar '=' ("auth_token=".data ++ t.data) =
      ["auth_token".data, t.data] := by
    have : ("auth_token=".data ++ t.data) = "auth_token".data ++ '=' :: t.data := by rfl
    rw [this, splitChar_append _ _ _ (by decide),
      splitChar_eq_single _ _ (fun hmem => (h _ hmem).2.1 rfl)]
  have hcookie : cookieTokenOf ⟨"auth_token=".data ++ t.data⟩ = some t := by
    unfold cookieTokenOf
    simp only [hsplit, List.find?_cons, htrim, hstarts, heqsplit]
    rfl
  unfold tokenOf
  rw [hcookie]
  simp [hne]

/-- A token supplied through `Authorization: Bearer` (with no cookie) is
extracted verbatim. -/
theorem tokenOf_bearer (t : String) (hne : t ≠ "") :
    tokenOf "" (some ⟨"Bearer ".data ++ t.data⟩) = some t := by
  have hb : bearerTokenOf (some ⟨"Bearer ".data ++ t.data⟩) = some t := by
    unfold bearerTokenOf
    simp [listStarts, List.take_left, List.drop_left]
  unfold tokenOf
  rw [show cookieTokenOf "" = none from rfl, hb]
  simp [hne]

/-! ## C1 and C2: the backup/retention manager -/

theorem jsonSaveBackup_dataJson (delOk : ObjKey → Bool) (u c : String)
    (now : Nat) (st : Store) :
    (jsonSaveBackup delOk u c now st).1 (.dataJson u) = some c := by
  cases hm : st (.dataJson u) <;> simp [jsonSaveBackup, hm, sweep, insertStore]

theorem jsonSaveBackup_backup_self (delOk : ObjKey → Bool) (u b c : String)
    (now : Nat) (st : Store) (hd : st (.dataJson u) = some b) :
    (jsonSaveBackup delOk u c now st).1 (.backup u now) = some b := by
  have hw : ¬ (now - now > retentionWindow) := by omega
  simp [jsonSaveBackup, hd, sweep, insertStore, hw]

theorem jsonSaveBackup_backup_none (delOk : ObjKey → Bool) (u c : String)
    (ts now : Nat) (st : Store) (hb : st (.backup u ts) = none)
    (hne : ts ≠ now ∨ st (.dataJson u) = none) :
    (jsonSaveBackup delOk u c now st).1 (.backup u ts) = none := by
  cases hm : st (.dataJson u) with
  | none =>
    simp only [jsonSaveBackup, hm, sweep, insertStore]
    split
    · rfl
    · simp [hb]
  | some old =>
    have hts : ts ≠ now := by
      rcases hne with h | h
      · exact h
      · rw [hm] at h; exact absurd h (by simp)
    simp only [jsonSaveBackup, hm, sweep, insertStore]
    split
    · rfl
    · simp [hts, hb]

/-- **C1**: on a JSON save, an existing object at the canonical key is
copied to a backup key stamped with the current time before the new content
is written; starting from a store with nothing for user `u`, the first save
creates zero backups and the second save creates exactly one backup key
(stamped `t₂`, holding the first save's content), with the canonical key
holding the latest content after each save. -/
theorem claim_C1 (st : Store) (u c₁ c₂ : String) (t₁ t₂ : Nat)
    (delOk : ObjKey → Bool)
    (h0 : st (.dataJson u) = none)
    (hb : ∀ ts, st (.backup u ts) = none) :
    (∀ ts, (jsonSaveBackup delOk u c₁ t₁ st).1 (.backup u ts) = none) ∧
    (jsonSaveBackup delOk u c₁ t₁ st).1 (.dataJson u) = some c₁ ∧
    (jsonSaveBackup delOk u c₂ t₂
      (jsonSaveBackup delOk u c₁ t₁ st).1).1 (.backup u t₂) = some c₁ ∧
    (∀ ts, ts ≠ t₂ →
      (jsonSaveBackup delOk u c₂ t₂
        (jsonSaveBackup delOk u c₁ t₁ st).1).1 (.backup u ts) = none) ∧
    (jsonSaveBackup delOk u c₂ t₂
      (jsonSaveBackup delOk u c₁ t₁ st).1).1 (.dataJson u) = some c₂ := by
  have hs₁b : ∀ ts, (jsonSaveBackup delOk u c₁ t₁ st).1 (.backup u ts) = none :=
    fun ts => jsonSaveBackup_backup_none delOk u c₁ ts t₁ st (hb ts) (Or.inr h0)
  have hs₁d : (jsonSaveBackup delOk u c₁ t₁ st).1 (.dataJson u) = some c₁ :=
    jsonSaveBackup_dataJson delOk u c₁ t₁ st
  exact ⟨hs₁b, hs₁d,
    jsonSaveBackup_backup_self delOk u c₁ c₂ t₂ _ hs₁d,
    fun ts hts =>
      jsonSaveBackup_backup_none delOk u c₂ ts t₂ _ (hs₁b ts) (Or.inl hts),
    jsonSaveBackup_dataJson delOk u c₂ t₂ _⟩

/-- Witness for C1 at a concrete store and inputs. -/
theorem claim_C1_witness :
    ((fun _ => none : Store) (.dataJson "alice") = none) ∧
    ((∀ ts, (jsonSaveBackup (fun _ => true) "alice" "v1" 5 (fun _ => none)).1
        (.backup "alice" ts) = none) ∧
      (jsonSaveBackup (fun _ => true) "alice" "v1" 5 (fun _ => none)).1
        (.dataJson "alice") = some "v1" ∧
      (jsonSaveBackup (fun _ => true) "alice" "v2" 9
        (jsonSaveBackup (fun _ => true) "alice" "v1" 5 (fun _ => none)).1).1
        (.backup "alice" 9) = some "v1" ∧
      (∀ ts, ts ≠ 9 →
        (jsonSaveBackup (fun _ => true) "alice" "v2" 9
          (jsonSaveBackup (fun _ => true) "alice" "v1" 5 (fun _ => none)).1).1
          (.backup "alice" ts) = none) ∧
      (jsonSaveBackup (fun _ => true) "alice" "v2" 9
        (jsonSaveBackup (fun _ => true) "alice" "v1" 5 (fun _ => none)).1).1
        (.dataJson "alice") = some "v2") :=
  ⟨rfl, claim_C1 (fun _ => none) "alice" "v1" "v2" 5 9 (fun _ => true) rfl
    (fun _ => rfl)⟩

/-- **C2**: after the canonical write, the sweep deletes every backup of
the user older than the 30-day window whose delete succeeds, retains every
backup inside the window, leaves a backup in place when its delete fails,
and the save response is 200 for every pattern of sweep failures. -/
theorem claim_C2 (st : Store) (u c : String) (now : Nat) (delOk : ObjKey → Bool) :
    ((jsonSaveBackup delOk u c now st).2 = 200) ∧
    (∀ ts, now - ts > retentionWindow → delOk (.backup u ts) = true →
      (jsonSaveBackup delOk u c now st).1 (.backup u ts) = none) ∧
    (∀ ts b, st (.backup u ts) = some b → now - ts ≤ retentionWindow →
      (jsonSaveBackup delOk u c now st).1 (.backup u ts) ≠ none) ∧
    (∀ ts b, st (.backup u ts) = some b → delOk (.backup u ts) = false →
      (jsonSaveBackup delOk u c now st).1 (.backup u ts) ≠ none) := by
  refine ⟨?_, ?_, ?_, ?_⟩
  · cases hm : st (.dataJson u) <;> simp [jsonSaveBackup, hm]
  · intro ts hgt hok
    cases hm : st (.dataJson u) <;>
      simp [jsonSaveBackup, hm, sweep, insertStore, hgt, hok]
  · intro ts b hmem hle
    have hngt : ¬ (now - ts > retentionWindow) := by omega
    cases hm : st (.dataJson u) <;>
      simp only [jsonSaveBackup, hm, sweep, insertStore] <;>
      simp only [hngt, false_and, and_false, if_false] <;>
      split <;> simp [hmem] <;> split <;> simp
  · intro ts b hmem hok
    cases hm : st (.dataJson u) <;>
      simp only [jsonSaveBackup, hm, sweep, insertStore] <;>
      split <;> simp_all [hmem] <;> split <;> simp

/-- Witness for C2 at a concrete store, with one stale backup (deleted),
one fresh backup (retained), one stale backup whose delete fails
(retained), and a 200 response. -/
theorem claim_C2_witness :
    ((jsonSaveBackup (fun k => k != ObjKey.backup "alice" 1) "alice" "v"
        (retentionWindow + 10) stC2).2 = 200) ∧
    (jsonSaveBackup (fun k => k != ObjKey.backup "alice" 1) "alice" "v"
        (retentionWindow + 10) stC2).1 (.backup "alice" 0) = none ∧
    (jsonSaveBackup (fun k => k != ObjKey.backup "alice" 1) "alice" "v"
        (retentionWindow + 10) stC2).1 (.backup "alice" 20) ≠ none ∧
    (jsonSaveBackup (fun k => k != ObjKey.backup "alice" 1) "alice" "v"
        (retentionWindow + 10) stC2).1 (.backup "alice" 1) ≠ none := by
  refine ⟨(claim_C2 stC2 "alice" "v" (retentionWindow + 10) _).1,
    (claim_C2 stC2 "alice" "v" (retentionWindow + 10) _).2.1 0 (by decide)
      (by decide),
    (claim_C2 stC2 "alice" "v" (retentionWindow + 10) _).2.2.1 20 "fresh"
      (by decide) (by decide),
    (claim_C2 stC2 "alice" "v" (retentionWindow + 10) _).2.2.2 1 "old1"
      (by decide) (by decide)⟩

/-! ## C3: unauthenticated save is 401 with no storage write -/

/-- **C3**: a POST to either save variant that carries no `auth_token`
cookie piece and no `Authorization: Bearer` header is answered 401, and the
handler issues no `PutObjectCommand` at all. -/
theorem claim_C3 (env : SaveEnv) (now : Nat) (rand : String) (req : SaveRequest)
    (hm : req.method = "POST")
    (hc : ∀ c ∈ splitChar ';' req.cookie.data,
      listStarts "auth_token=".data (jsTrim c) = false)
    (hb : ∀ a, req.authorization = some a →
      listStarts "Bearer ".data a.data = false) :
    (saveHandler env now rand req).response.status = 401 ∧
    (saveHandler env now rand req).ops = [] ∧
    (savePart000 env now req).response.status = 401 ∧
    (savePart000 env now req).ops = [] := by
  have hct : cookieTokenOf req.cookie = none := by
    unfold cookieTokenOf
    rw [List.find?_eq_none.mpr (fun c hcm => by simp [hc c hcm])]
  have hbt : bearerTokenOf req.authorization = none := by
    cases ha : req.authorization with
    | none => rfl
    | some a => simp [bearerTokenOf, hb a ha]
  have hvt : verifyToken env.JWT_SECRET now req.cookie req.authorization = none := by
    unfold verifyToken tokenOf
    rw [hct, hbt]
  refine ⟨?_, ?_, ?_, ?_⟩ <;> simp [saveHandler, savePart000, hm, hvt]

/-- Witness for C3. -/
theorem claim_C3_witness :
    (reqC3.method = "POST") ∧
    ((saveHandler envW 0 "r" reqC3).response.status = 401 ∧
      (saveHandler envW 0 "r" reqC3).ops = [] ∧
      (savePart000 envW 0 reqC3).response.status = 401 ∧
      (savePart000 envW 0 reqC3).ops = []) :=
  ⟨rfl, claim_C3 envW 0 "r" reqC3 rfl (by decide) (fun a h => by cases h)⟩

/-! ## C4: cookie and bearer token are equivalent, cookie wins -/

/-- **C4**: for a well-formed token `t` (nonempty, no `;`, `=` or
whitespace — every token the codec issues over such alphabets is of this
shape), the credential extractor yields the same identity when `t` arrives
in the `auth_token` cookie as when it arrives in a bearer header; when both
a cookie token and any bearer header are present the cookie token is the
one fed to the codec; and in particular a valid cookie token together with
an arbitrary (e.g. invalid) bearer header still authenticates `verify`. -/
theorem claim_C4 (t : String) (b : Option String) (secretEnv : Option String)
    (now : Nat) (hne : t ≠ "")
    (hw : ∀ c ∈ t.data, c ≠ ';' ∧ c ≠ '=' ∧ c.isWhitespace = false) :
    (verifyToken secretEnv now ⟨"auth_token=".data ++ t.data⟩ none =
      verifyToken secretEnv now "" (some ⟨"Bearer ".data ++ t.data⟩)) ∧
    (tokenOf ⟨"auth_token=".data ++ t.data⟩ b = some t) ∧
    (∀ p : JwtPayload, jwtVerify (jwtSecretOf secretEnv) now t = some p →
      p.username ≠ "" →
      verifyHandler secretEnv now ⟨"GET", ⟨"auth_token=".data ++ t.data⟩, b⟩ =
        ⟨200, true, some p.username, none⟩) := by
  have hcook : tokenOf ⟨"auth_token=".data ++ t.data⟩ b = some t :=
    tokenOf_cookie t b hne hw
  have hcook0 : tokenOf ⟨"auth_token=".data ++ t.data⟩ none = some t :=
    tokenOf_cookie t none hne hw
  have hbear : tokenOf "" (some ⟨"Bearer ".data ++ t.data⟩) = some t :=
    tokenOf_bearer t hne
  refine ⟨?_, hcook, ?_⟩
  · unfold verifyToken
    rw [hcook0, hbear]
  · intro p hp hpu
    have hvt : verifyToken secretEnv now ⟨"auth_token=".data ++ t.data⟩ b = some p := by
      unfold verifyToken
      rw [hcook]
      exact hp
    unfold verifyHandler
    rw [if_neg (by simp), hvt]
    simp [hpu]

/-- Witness for C4 at the token `"tok"` with a syntactically invalid bearer
header alongside. -/
theorem claim_C4_witness :
    (("tok" : String) ≠ "" ∧
      (∀ c ∈ ("tok" : String).data, c ≠ ';' ∧ c ≠ '=' ∧ c.isWhitespace = false)) ∧
    ((verifyToken none 0 ⟨"auth_token=".data ++ ("tok" : String).data⟩ none =
      verifyToken none 0 "" (some ⟨"Bearer ".data ++ ("tok" : String).data⟩)) ∧
    (tokenOf ⟨"auth_token=".data ++ ("tok" : String).data⟩
      (some "Bearer not-a-valid-token") = some "tok") ∧
    (∀ p : JwtPayload, jwtVerify (jwtSecretOf none) 0 "tok" = some p →
      p.username ≠ "" →
      verifyHandler none 0
        ⟨"GET", ⟨"auth_token=".data ++ ("tok" : String).data⟩,
          some "Bearer not-a-valid-token"⟩ =
        ⟨200, true, some p.username, none⟩)) :=
  ⟨⟨by decide, by decide⟩,
    claim_C4 "tok" (some "Bearer not-a-valid-token") none 0 (by decide) (by decide)⟩

/-! ## C5: every written key sits under the authenticated username -/

theorem eq_of_slashfree_pre (a : List Char) :
    ∀ b rest : List Char, '/' ∉ a → '/' ∉ b →
      (b ++ ['/']) <+: (a ++ '/' :: rest) → b = a := by
  induction a with
  | nil =>
    intro b rest _ hb h
    cases b with
    | nil => rfl
    | cons d b' =>
      rw [List.nil_append, List.cons_append] at h
      have hd := (List.cons_prefix_cons.mp h).1
      exact absurd (hd ▸ List.mem_cons_self d b') hb
  | cons c a' ih =>
    intro b rest ha hb h
    cases b with
    | nil =>
      rw [List.nil_append, List.cons_append] at h
      have hd := (List.cons_prefix_cons.mp h).1
      exact absurd (hd ▸ List.mem_cons_self c a') ha
    | cons d b' =>
      rw [List.cons_append, List.cons_append] at h
      obtain ⟨hdc, h'⟩ := List.cons_prefix_cons.mp h
      have hb' : b' = a' :=
        ih b' rest (fun hmm => ha (List.mem_cons_of_mem _ hmm))
          (fun hmm => hb (List.mem_cons_of_mem _ hmm)) h'
      rw [hdc, hb']

theorem exists_tail_append_lit (u s : String) (tl : List Char)
    (hs : s.data = '/' :: tl) :
    ∃ r : List Char, (u ++ s).data = u.data ++ '/' :: r :=
  ⟨tl, by rw [String.data_append, hs]⟩

theorem exists_tail_append2 (u fn : String) :
    ∃ r : List Char, ((u ++ "/img/") ++ fn).data = u.data ++ '/' :: r :=
  ⟨"img/".data ++ fn.data,
    by rw [String.data_append, String.data_append]; simp [List.append_assoc]⟩

theorem saveHandler_ops_keys (env : SaveEnv) (now : Nat) (rand : String)
    (req : SaveRequest) (p : JwtPayload)
    (hauth : verifyToken env.JWT_SECRET now req.cookie req.authorization = some p) :
    ∀ op ∈ (saveHandler env now rand req).ops,
      ∃ rest : List Char, op.key.data = p.username.data ++ '/' :: rest := by
  intro op hop
  unfold saveHandler at hop
  rw [hauth] at hop
  repeat' (first | (dsimp only at hop) | (split at hop))
  all_goals (try simp only [List.mem_append, List.mem_cons, List.mem_singleton,
    List.not_mem_nil, or_false, false_or] at hop)
  all_goals
    first
    | (obtain rfl := hop
       first
       | exact exists_tail_append_lit _ "/data.json" _ rfl
       | exact exists_tail_append2 _ _)
    | (obtain rfl | rfl := hop
       · exact exists_tail_append_lit _ "/data.json" _ rfl
       · exact exists_tail_append2 _ _)

theorem savePart000_ops_keys (env : SaveEnv) (now : Nat)
    (req : SaveRequest) (p : JwtPayload)
    (hauth : verifyToken env.JWT_SECRET now req.cookie req.authorization = some p) :
    ∀ op ∈ (savePart000 env now req).ops,
      ∃ rest : List Char, op.key.data = p.username.data ++ '/' :: rest := by
  intro op hop
  unfold savePart000 at hop
  rw [hauth] at hop
  repeat' (first | (dsimp only at hop) | (split at hop))
  all_goals (try simp only [List.mem_append, List.mem_cons, List.mem_singleton,
    List.not_mem_nil, or_false, false_or] at hop)
  all_goals
    first
    | (obtain rfl := hop
       first
       | exact exists_tail_append_lit _ "/data.json" _ rfl
       | exact exists_tail_append2 _ _)
    | (obtain rfl | rfl := hop
       · exact exists_tail_append_lit _ "/data.json" _ rfl
       · exact exists_tail_append2 _ _)

/-- **C5**: every key either save variant writes for the authenticated
identity `p.username` begins with `p.username ++ "/"`; and (for usernames
not containing `/`) no written key begins with a different username's
directory. -/
theorem claim_C5 (env : SaveEnv) (now : Nat) (rand : String) (req : SaveRequest)
    (p : JwtPayload)
    (hauth : verifyToken env.JWT_SECRET now req.cookie req.authorization = some p) :
    (∀ op ∈ (saveHandler env now rand req).ops,
      (p.username ++ "/").data <+: op.key.data) ∧
    (∀ op ∈ (savePart000 env now req).ops,
      (p.username ++ "/").data <+: op.key.data) ∧
    (∀ u' : String, u' ≠ p.username → '/' ∉ p.username.data → '/' ∉ u'.data →
      (∀ op ∈ (saveHandler env now rand req).ops,
        ¬ (u' ++ "/").data <+: op.key.data) ∧
      (∀ op ∈ (savePart000 env now req).ops,
        ¬ (u' ++ "/").data <+: op.key.data)) := by
  have hdir : (p.username ++ "/").data = p.username.data ++ ['/'] := by
    rw [String.data_append]
  have hpre : ∀ rest : List Char,
      (p.username ++ "/").data <+: (p.username.data ++ '/' :: rest) := by
    intro rest
    rw [hdir, show p.username.data ++ '/' :: rest =
      (p.username.data ++ ['/']) ++ rest by simp]
    exact List.prefix_append _ _
  have hnot : ∀ u' : String, u' ≠ p.username → '/' ∉ p.username.data →
      '/' ∉ u'.data → ∀ rest : List Char,
      ¬ (u' ++ "/").data <+: (p.username.data ++ '/' :: rest) := by
    intro u' hne hu hu' rest hcontra
    rw [show (u' ++ "/").data = u'.data ++ ['/'] by rw [String.data_append]]
      at hcontra
    have : u'.data = p.username.data :=
      eq_of_slashfree_pre p.username.data u'.data rest hu hu' hcontra
    exact hne (String.ext this)
  refine ⟨?_, ?_, ?_⟩
  · intro op hop
    obtain ⟨rest, hk⟩ := saveHandler_ops_keys env now rand req p hauth op hop
    rw [hk]; exact hpre rest
  · intro op hop
    obtain ⟨rest, hk⟩ := savePart000_ops_keys env now req p hauth op hop
    rw [hk]; exact hpre rest
  · intro u' hne hu hu'
    constructor
    · intro op hop
      obtain ⟨rest, hk⟩ := saveHandler_ops_keys env now rand req p hauth op hop
      rw [hk]; exact hnot u' hne hu hu' rest
    · intro op hop
      obtain ⟨rest, hk⟩ := savePart000_ops_keys env now req p hauth op hop
      rw [hk]; exact hnot u' hne hu hu' rest

/-! ## Authenticated-request helper lemmas -/

theorem jwtSign_ne_empty (secret u : String) (iat : Nat) :
    jwtSign secret u iat ≠ "" := by
  intro h
  rw [String.ext_iff] at h
  simp [jwtSign] at h

/-- A freshly signed token presented as a bearer header authenticates as
its payload while unexpired. -/
theorem verifyToken_bearer_sign (secretEnv : Option String) (u : String)
    (iat now : Nat) (hnow : now < iat + sevenDays) :
    verifyToken secretEnv now ""
      (some ⟨"Bearer ".data ++ (jwtSign (jwtSecretOf secretEnv) u iat).data⟩) =
      some ⟨u, iat⟩ := by
  unfold verifyToken
  rw [tokenOf_bearer _ (jwtSign_ne_empty _ _ _)]
  dsimp only
  rw [jwtVerify_jwtSign, if_pos hnow]

/-- Witness for C5: a concrete authenticated request saving both JSON and
an image under user `alice`. -/
theorem claim_C5_witness :
    (verifyToken envW.JWT_SECRET 0 reqC5.cookie reqC5.authorization =
      some ⟨"alice", 0⟩) ∧
    ((∀ op ∈ (saveHandler envW 0 "r" reqC5).ops,
        (("alice" : String) ++ "/").data <+: op.key.data) ∧
      (∀ op ∈ (savePart000 envW 0 reqC5).ops,
        (("alice" : String) ++ "/").data <+: op.key.data) ∧
      (∀ u' : String, u' ≠ "alice" → '/' ∉ ("alice" : String).data →
        '/' ∉ u'.data →
        (∀ op ∈ (saveHandler envW 0 "r" reqC5).ops,
          ¬ (u' ++ "/").data <+: op.key.data) ∧
        (∀ op ∈ (savePart000 envW 0 reqC5).ops,
          ¬ (u' ++ "/").data <+: op.key.data))) :=
  ⟨verifyToken_bearer_sign (some "secret") "alice" 0 0 (by decide),
    claim_C5 envW 0 "r" reqC5 ⟨"alice", 0⟩
      (verifyToken_bearer_sign (some "secret") "alice" 0 0 (by decide))⟩

/-! ## C6: the R2 addressing mode -/

/-- **C6 counterexample**: with `R2_ACCOUNT_ID` set but `S3_ENDPOINT` and
`S3_REGION` also set, the client keeps the explicit endpoint (nothing is
derived from the account id) and the region is not `'auto'` — only
path-style addressing is forced, so the claim's "endpoint derived and
region forced to auto whenever `R2_ACCOUNT_ID` is set" fails. -/
theorem claim_C6_counterexample :
    isR2 envC6 = true ∧
    (s3ClientOf envC6).region = "us-west-2" ∧
    (s3ClientOf envC6).region ≠ "auto" ∧
    (s3ClientOf envC6).endpoint = some "https://minio.example.com" ∧
    (s3ClientOf envC6).endpoint ≠
      some "https://acct123.r2.cloudflarestorage.com" ∧
    (s3ClientOf envC6).forcePathStyle = true := by decide

/-- **C6 amended**: when `R2_ACCOUNT_ID` is set, path-style addressing is
always forced on; the endpoint is derived as
`https://{account}.{jurisdiction.}r2.cloudflarestorage.com` only when
`S3_ENDPOINT` is unset; and the region defaults to `'auto'` only when
`S3_REGION` is unset. -/
theorem claim_C6_amended (env : SaveEnv) (h : isR2 env = true) :
    (s3ClientOf env).forcePathStyle = true ∧
    (envStr env.S3_ENDPOINT = "" →
      (s3ClientOf env).endpoint =
        some ("https://" ++ envStr env.R2_ACCOUNT_ID ++ "." ++
          (if envStr env.R2_JURISDICTION = "" then ""
            else envStr env.R2_JURISDICTION ++ ".") ++
          "r2.cloudflarestorage.com")) ∧
    (envStr env.S3_REGION = "" → (s3ClientOf env).region = "auto") := by
  refine ⟨?_, ?_, ?_⟩
  · simp [s3ClientOf, s3ForcePathStyle, h]
  · intro he
    simp [s3ClientOf, s3Endpoint, he, h]
  · intro hr
    simp [s3ClientOf, s3Region, hr, h]

/-- Witness for the amended C6 at a pure R2 environment (with the `eu`
jurisdiction). -/
theorem claim_C6_witness :
    (isR2 envR2 = true) ∧
    ((s3ClientOf envR2).forcePathStyle = true ∧
      (envStr envR2.S3_ENDPOINT = "" →
        (s3ClientOf envR2).endpoint =
          some ("https://" ++ envStr envR2.R2_ACCOUNT_ID ++ "." ++
            (if envStr envR2.R2_JURISDICTION = "" then ""
              else envStr envR2.R2_JURISDICTION ++ ".") ++
            "r2.cloudflarestorage.com")) ∧
      (envStr envR2.S3_REGION = "" → (s3ClientOf envR2).region = "auto")) :=
  ⟨by decide, claim_C6_amended envR2 (by decide)⟩

/-! ## C7: content-type inference -/

/-- **C7 counterexample**: the JavaScript property read
`contentTypeMap["constructor"]` finds the `Object.prototype` constructor, a
truthy non-string value, so `contentTypeMap[t] || 'image/png'` does not
fall back to `image/png` for the input `"constructor"`. -/
theorem claim_C7_counterexample :
    inferContentType "constructor" = CType.protoVal "constructor" ∧
    inferContentType "constructor" ≠ CType.mime "image/png" := by decide

/-- **C7 amended**: the fixed mapping behaves as claimed on its six keys,
and every other input yields `image/png` — except the property names
inherited from `Object.prototype` (`constructor`, `toString`, …), for
which the truthy inherited value is used instead of a MIME string. -/
theorem claim_C7_amended (t : String)
    (hmap : t ∉ ["jpg", "jpeg", "png", "gif", "webp", "svg"]) :
    inferContentType "jpg" = CType.mime "image/jpeg" ∧
    inferContentType "jpeg" = CType.mime "image/jpeg" ∧
    inferContentType "png" = CType.mime "image/png" ∧
    inferContentType "gif" = CType.mime "image/gif" ∧
    inferContentType "webp" = CType.mime "image/webp" ∧
    inferContentType "svg" = CType.mime "image/svg+xml" ∧
    (t ∉ objectProtoProps → inferContentType t = CType.mime "image/png") ∧
    (t ∈ objectProtoProps → inferContentType t = CType.protoVal t) := by
  have hlk : contentTypeMap.lookup t = none := by
    simp only [List.mem_cons, List.not_mem_nil, or_false, not_or] at hmap
    obtain ⟨h1, h2, h3, h4, h5, h6⟩ := hmap
    have b1 : (t == "jpg") = false := by simp [h1]
    have b2 : (t == "jpeg") = false := by simp [h2]
    have b3 : (t == "png") = false := by simp [h3]
    have b4 : (t == "gif") = false := by simp [h4]
    have b5 : (t == "webp") = false := by simp [h5]
    have b6 : (t == "svg") = false := by simp [h6]
    simp [contentTypeMap, List.lookup, b1, b2, b3, b4, b5, b6]
  refine ⟨by decide, by decide, by decide, by decide, by decide, by decide,
    ?_, ?_⟩
  · intro hp
    simp [inferContentType, hlk, hp]
  · intro hp
    simp [inferContentType, hlk, hp]

/-- Witness for the amended C7 at the unknown extension `"bmp"`. -/
theorem claim_C7_witness :
    (("bmp" : String) ∉ ["jpg", "jpeg", "png", "gif", "webp", "svg"]) ∧
    (inferContentType "jpg" = CType.mime "image/jpeg" ∧
      inferContentType "jpeg" = CType.mime "image/jpeg" ∧
      inferContentType "png" = CType.mime "image/png" ∧
      inferContentType "gif" = CType.mime "image/gif" ∧
      inferContentType "webp" = CType.mime "image/webp" ∧
      inferContentType "svg" = CType.mime "image/svg+xml" ∧
      (("bmp" : String) ∉ objectProtoProps →
        inferContentType "bmp" = CType.mime "image/png") ∧
      (("bmp" : String) ∈ objectProtoProps →
        inferContentType "bmp" = CType.protoVal "bmp")) :=
  ⟨by decide, claim_C7_amended "bmp" (by decide)⟩

/-- The verify handler on an authenticated GET/POST request answers 200
with the decoded username. -/
theorem verifyHandler_auth (secretEnv : Option String) (now : Nat)
    (req : VerifyRequest) (p : JwtPayload)
    (hm : ¬(req.method ≠ "GET" ∧ req.method ≠ "POST"))
    (hvt : verifyToken secretEnv now req.cookie req.authorization = some p)
    (hpu : p.username ≠ "") :
    verifyHandler secretEnv now req = ⟨200, true, some p.username, none⟩ := by
  unfold verifyHandler
  rw [if_neg hm, hvt]
  simp [hpu]

/-! ## C8: login/verify roundtrip -/

/-- **C8**: with credentials configured, a login with the matching
username/password pair answers 200 and its token, presented to the verify
handler (before expiry), authenticates and decodes to the same username;
a non-matching pair answers 401 with no cookie set. -/
theorem claim_C8 (env : LoginEnv) (nowSec nowV : Nat) (u pw : Option String)
    (hU : envStr env.LOGIN_USERNAME ≠ "") (hP : envStr env.LOGIN_PASSWORD ≠ "")
    (hexp : nowV < nowSec + sevenDays) :
    ((u = some (envStr env.LOGIN_USERNAME) ∧
        pw = some (envStr env.LOGIN_PASSWORD)) →
      (loginHandler env nowSec ⟨"POST", u, pw⟩).status = 200 ∧
      ∀ t : String, (loginHandler env nowSec ⟨"POST", u, pw⟩).token = some t →
        verifyHandler env.JWT_SECRET nowV
            ⟨"GET", "", some ⟨"Bearer ".data ++ t.data⟩⟩ =
          ⟨200, true, some (envStr env.LOGIN_USERNAME), none⟩) ∧
    ((u ≠ some (envStr env.LOGIN_USERNAME) ∨
        pw ≠ some (envStr env.LOGIN_PASSWORD)) →
      loginHandler env nowSec ⟨"POST", u, pw⟩ =
        ⟨401, none, none, some "Invalid username or password"⟩) := by
  constructor
  · rintro ⟨hu, hp⟩
    constructor
    · simp [loginHandler, hu, hp, hU, hP]
    · intro t ht
      simp only [loginHandler, hu, hp, hU, hP] at ht
      rw [if_neg (by simp), if_neg (by simp [hU, hP]), if_neg (by simp)] at ht
      simp only [Option.getD_some, Option.some.injEq] at ht
      subst ht
      exact verifyHandler_auth env.JWT_SECRET nowV _
        ⟨envStr env.LOGIN_USERNAME, nowSec⟩ (by simp)
        (verifyToken_bearer_sign env.JWT_SECRET (envStr env.LOGIN_USERNAME)
          nowSec nowV hexp) hU
  · intro hmis
    simp only [loginHandler]
    rw [if_neg (by simp), if_neg (by simp [hU, hP]), if_pos hmis]

/-- Witness for C8: concrete credentials, a matching and a non-matching
login. -/
theorem claim_C8_witness :
    (envStr envL.LOGIN_USERNAME ≠ "" ∧ envStr envL.LOGIN_PASSWORD ≠ "" ∧
      (1 : Nat) < 0 + sevenDays) ∧
    (((some "admin" : Option String) = some (envStr envL.LOGIN_USERNAME) ∧
        (some "pw" : Option String) = some (envStr envL.LOGIN_PASSWORD) →
      (loginHandler envL 0 ⟨"POST", some "admin", some "pw"⟩).status = 200 ∧
      ∀ t : String,
        (loginHandler envL 0 ⟨"POST", some "admin", some "pw"⟩).token = some t →
        verifyHandler envL.JWT_SECRET 1
            ⟨"GET", "", some ⟨"Bearer ".data ++ t.data⟩⟩ =
          ⟨200, true, some (envStr envL.LOGIN_USERNAME), none⟩) ∧
    (((some "admin" : Option String) ≠ some (envStr envL.LOGIN_USERNAME) ∨
        (some "pw" : Option String) ≠ some (envStr envL.LOGIN_PASSWORD)) →
      loginHandler envL 0 ⟨"POST", some "admin", some "pw"⟩ =
        ⟨401, none, none, some "Invalid username or password"⟩)) :=
  ⟨⟨by decide, by decide, by decide⟩,
    claim_C8 envL 0 1 (some "admin") (some "pw") (by decide) (by decide)
      (by decide)⟩

/-! ## C9: JSON written before the missing-filename 400 -/

/-- **C9**: in the unnamed save variant, an authenticated request with
truthy `data` and `image` but no `filename` gets a 400 response, yet the
JSON object has already been put to storage — the trace holds exactly the
JSON write. -/
theorem claim_C9 (env : SaveEnv) (now : Nat) (req : SaveRequest)
    (p : JwtPayload) (v : JsVal) (s : String)
    (hm : req.method = "POST")
    (hauth : verifyToken env.JWT_SECRET now req.cookie req.authorization = some p)
    (hu : p.username ≠ "")
    (hbucket : envStr env.S3_BUCKET ≠ "")
    (hdata : req.data = some v) (hv : jsTruthy v = true)
    (himg : req.image = some s) (hs : s ≠ "")
    (hfn : req.filename = none ∨ req.filename = some "") :
    savePart000 env now req =
      ⟨⟨400, some "filename is required when providing image data",
        false, none, none⟩,
      [⟨p.username ++ "/data.json", CType.mime "application/json",
        jsonBodyOf v⟩]⟩ := by
  rcases hfn with hfn | hfn <;>
    simp [savePart000, hm, hauth, hu, hdata, hv, himg, hs, hfn, hbucket]

/-- Witness for C9 at a concrete authenticated request. -/
theorem claim_C9_witness :
    (reqC9.method = "POST" ∧ envStr envW.S3_BUCKET ≠ "" ∧
      jsTruthy (JsVal.vstr "d") = true ∧ reqC9.filename = none) ∧
    savePart000 envW 0 reqC9 =
      ⟨⟨400, some "filename is required when providing image data",
        false, none, none⟩,
      [⟨"alice" ++ "/data.json", CType.mime "application/json",
        jsonBodyOf (JsVal.vstr "d")⟩]⟩ :=
  ⟨⟨rfl, by decide, by decide, rfl⟩,
    claim_C9 envW 0 reqC9 ⟨"alice", 0⟩ (JsVal.vstr "d")
      "data:image/png;base64,AAA" rfl
      (verifyToken_bearer_sign (some "secret") "alice" 0 0 (by decide))
      (by decide) (by decide) rfl (by decide) rfl (by decide) (Or.inl rfl)⟩

/-! ## C10: falsy `data` is treated as absent -/

/-- **C10**: an authenticated save whose `data` field holds a falsy JSON
value (`""`, `0`, `false`, `null`) and whose `image` is absent or falsy is
answered 400 with no storage write, in both variants, and the outcome is
identical to the same request with no `data` field at all — presence is
decided by truthiness, not by the field existing. -/
theorem claim_C10 (env : SaveEnv) (now : Nat) (rand : String)
    (req : SaveRequest) (p : JwtPayload) (v : JsVal)
    (hm : req.method = "POST")
    (hauth : verifyToken env.JWT_SECRET now req.cookie req.authorization = some p)
    (hu : p.username ≠ "")
    (hdata : req.data = some v) (hv : jsTruthy v = false)
    (himg : req.image = none ∨ req.image = some "") :
    (saveHandler env now rand req).response.status = 400 ∧
    (saveHandler env now rand req).ops = [] ∧
    saveHandler env now rand req =
      saveHandler env now rand
        ⟨req.method, req.cookie, req.authorization, none, req.image,
          req.filename⟩ ∧
    (savePart000 env now req).response.status = 400 ∧
    (savePart000 env now req).ops = [] ∧
    savePart000 env now req =
      savePart000 env now
        ⟨req.method, req.cookie, req.authorization, none, req.image,
          req.filename⟩ := by
  rcases himg with himg | himg <;>
    refine ⟨?_, ?_, ?_, ?_, ?_, ?_⟩ <;>
    simp [saveHandler, savePart000, hm, hauth, hu, hdata, hv, himg]

/-- Witness for C10 at `data = 0`, `image` absent. -/
theorem claim_C10_witness :
    (reqC10.method = "POST" ∧ reqC10.data = some (JsVal.vnum 0) ∧
      jsTruthy (JsVal.vnum 0) = false ∧ reqC10.image = none) ∧
    ((saveHandler envW 0 "r" reqC10).response.status = 400 ∧
      (saveHandler envW 0 "r" reqC10).ops = [] ∧
      saveHandler envW 0 "r" reqC10 =
        saveHandler envW 0 "r"
          ⟨reqC10.method, reqC10.cookie, reqC10.authorization, none,
            reqC10.image, reqC10.filename⟩ ∧
      (savePart000 envW 0 reqC10).response.status = 400 ∧
      (savePart000 envW 0 reqC10).ops = [] ∧
      savePart000 envW 0 reqC10 =
        savePart000 envW 0
          ⟨reqC10.method, reqC10.cookie, reqC10.authorization, none,
            reqC10.image, reqC10.filename⟩) :=
  ⟨⟨rfl, rfl, by decide, rfl⟩,
    claim_C10 envW 0 "r" reqC10 ⟨"alice", 0⟩ (JsVal.vnum 0) rfl
      (verifyToken_bearer_sign (some "secret") "alice" 0 0 (by decide))
      (by decide) rfl (by decide) (Or.inl rfl)⟩

end SaveBackend
